import Mathlib

/-!
Verification of the real-time synchronization provider
(`src/packages/store/src/websocket/y-websocket.js` and its typed
near-duplicate).  The development shallowly embeds the wire codec
(lib0 var-uint / var-string framing), the SYNC message handler with its
document-identifier resolution, the transport-session state machine
(setup / open / message / close) and the facade-level `disconnect`
sequence, and proves the frozen claims about them.
-/

namespace YWs

/-- Byte buffers are lists of naturals (each byte is a value `< 256`;
arithmetic is done with `% 128` exactly as lib0 does with `& 0x7f`). -/
abbrev Bytes := List Nat

/-! ## Wire codec: lib0 `encoding` / `decoding` primitives -/

/-- lib0 `encoding.writeVarUint`: write the low 7 bits with a
continuation bit while the number is `≥ 128`, then the final byte. -/
def writeVarUint (n : Nat) : Bytes :=
  if n < 128 then [n] else (128 + n % 128) :: writeVarUint (n / 128)
termination_by n
decreasing_by
  exact Nat.div_lt_self (by omega) (by norm_num)

/-- lib0 `decoding.readVarUint` loop: accumulate 7-bit groups scaled by
`mult`; a byte `< 128` terminates.  `none` models the
`unexpected end of array` exception on a truncated buffer. -/
def readVarUintAux : Bytes → Nat → Nat → Option (Nat × Bytes)
  | [], _, _ => none
  | r :: rest, num, mult =>
    if r < 128 then some (num + r % 128 * mult, rest)
    else readVarUintAux rest (num + r % 128 * mult) (mult * 128)

/-- lib0 `decoding.readVarUint` starting from an empty accumulator. -/
def readVarUint (b : Bytes) : Option (Nat × Bytes) :=
  readVarUintAux b 0 1

/-- lib0 `encoding.writeVarString` / `writeVarUint8Array`: the byte
length as a var-uint, then the raw bytes. -/
def writeVarString (s : Bytes) : Bytes :=
  writeVarUint s.length ++ s

/-- lib0 `decoding.readVarString` / `readVarUint8Array`: read a var-uint
length then that many bytes; `none` models the exception thrown when the
length prefix is truncated or claims more bytes than remain. -/
def readVarString (b : Bytes) : Option (Bytes × Bytes) :=
  match readVarUint b with
  | none => none
  | some (len, rest) =>
    if len ≤ rest.length then some (rest.take len, rest.drop len) else none

/-- lib0 `decoding.readVarUint8Array` is byte-for-byte the same reader
as `readVarString` in this byte-level model. -/
def readVarUint8Array (b : Bytes) : Option (Bytes × Bytes) :=
  readVarString b

/-! ## Message kinds and the CRDT sync-protocol reader -/

/-- Wire message kind `messageSync = 0`. -/
def messageSync : Nat := 0
/-- Wire message kind `messageAwareness = 1`. -/
def messageAwareness : Nat := 1
/-- Wire message kind `messageAuth = 2`. -/
def messageAuth : Nat := 2
/-- Wire message kind `messageQueryAwareness = 3`. -/
def messageQueryAwareness : Nat := 3

/-- `y-protocols/sync` step indicator `messageYjsSyncStep1 = 0`. -/
def messageYjsSyncStep1 : Nat := 0
/-- `y-protocols/sync` step indicator `messageYjsSyncStep2 = 1`. -/
def messageYjsSyncStep2 : Nat := 1
/-- `y-protocols/sync` step indicator `messageYjsUpdate = 2`. -/
def messageYjsUpdate : Nat := 2

/-- `y-protocols/sync readSyncMessage`: read the step indicator, then the
length-prefixed body (state vector for step 1, update buffer for step 2 /
update), and return the step indicator.  `none` models the exceptions the
external reader throws: truncated var-uint, truncated body, or the
`Unknown message type` throw for an indicator outside `{0, 1, 2}`.  The
engine-level application of the body is external to this subsystem. -/
def readSyncMessage (b : Bytes) : Option Nat :=
  match readVarUint b with
  | none => none
  | some (t, rest) =>
    if t = messageYjsSyncStep1 ∨ t = messageYjsSyncStep2 ∨ t = messageYjsUpdate then
      match readVarUint8Array rest with
      | none => none
      | some _ => some t
    else none

/-! ## Provider state and externally observable events -/

/-- The provider fields the claims range over, as initialised by the
`WebsocketProvider` constructor and mutated by the session callbacks.
`docs` is the registry key list in insertion order (document instances
are opaque); `mainMapKeys` is the key set of `provider.doc.getMap()`;
`awarenessClients` is the key set of `awareness.getStates()`;
`hasWs` is `ws !== null`; `localStateNonNull` is
`awareness.getLocalState() !== null`. -/
structure Provider where
  roomname : Bytes
  docs : List Bytes
  mainMapKeys : List Bytes
  synced : Bool
  syncedStatus : List (Bytes × Bool)
  wsconnected : Bool
  wsconnecting : Bool
  hasWs : Bool
  shouldConnect : Bool
  wsUnsuccessfulReconnects : Nat
  maxBackoffTime : Nat
  awarenessClients : List Nat
  clientID : Nat
  localStateNonNull : Bool
  bcconnected : Bool
deriving Repr, DecidableEq

/-- Externally observable effects of the session callbacks: `emit`
notifications, frames sent on the websocket, and the scheduled
reconnect timer. -/
inductive Event where
  | statusConnecting
  | statusConnected
  | statusDisconnected
  | connectionClose
  | syncedEvent (b : Bool)
  | syncEvent (b : Bool)
  | subdocSynced (id : Bytes) (b : Bool)
  | wsSendSyncStep1 (id : Bytes)
  | wsSendLocalAwareness (client : Nat)
  | scheduleReconnect (delayMs : Nat)
deriving Repr, DecidableEq

/-- The `synced` setter: assign and emit `synced` / `sync` only when the
value changes. -/
def setSynced (s : Provider) (st : Bool) : Provider × List Event :=
  if s.synced = st then (s, [])
  else ({ s with synced := st }, [Event.syncedEvent st, Event.syncEvent st])

/-- `Map.get` on the sub-document sync status map (`undefined` is
`none`). -/
def statusGet (m : List (Bytes × Bool)) (id : Bytes) : Option Bool :=
  (m.find? (fun p => decide (p.1 = id))).map (fun p => p.2)

/-- `Map.set` on the sub-document sync status map: replace in place when
the key exists, otherwise append (JS `Map` insertion order). -/
def statusSet (m : List (Bytes × Bool)) (id : Bytes) (v : Bool) : List (Bytes × Bool) :=
  if (m.find? (fun p => decide (p.1 = id))).isSome then
    m.map (fun p => if p.1 = id then (id, v) else p)
  else m ++ [(id, v)]

/-- `WebsocketProvider.updateSyncedStatus`: set and emit `subdoc_synced`
only when the stored value differs (an absent entry differs from both
booleans, as `undefined !== state` does). -/
def updateSyncedStatus (s : Provider) (id : Bytes) (st : Bool) : Provider × List Event :=
  if statusGet s.syncedStatus id = some st then (s, [])
  else ({ s with syncedStatus := statusSet s.syncedStatus id st },
        [Event.subdocSynced id st])

/-! ## The SYNC message handler -/

/-- The try/catch block at the top of `messageHandlers[messageSync]`:
attempt to read a leading var-string document identifier; fall back to
the primary room name, rewinding `decoder.pos` to `oldpos`, when the
read throws or when the identifier is neither a key of
`provider.doc.getMap()` nor the room name.  Returns
`(docGuid, hasGuid, remaining bytes)`. -/
def resolveSyncDoc (s : Provider) (buf : Bytes) : Bytes × Bool × Bytes :=
  match readVarString buf with
  | none => (s.roomname, false, buf)
  | some (g, rest) =>
    if g ∉ s.mainMapKeys ∧ g ≠ s.roomname then (s.roomname, false, buf)
    else (g, true, rest)

/-- Shape of the reply encoder the SYNC handler leaves behind:
`noReply` when the handler returned before writing anything, otherwise
the written header (kind, optional identifier) plus the step indicator
the external `readSyncMessage` reported. -/
inductive SyncReply where
  | noReply
  | reply (hasGuid : Bool) (guid : Bytes) (syncType : Nat)
deriving Repr, DecidableEq

/-- The `// sub doc synced` conditional at the end of
`messageHandlers[messageSync]`, applied to the provider state `x` left
by the preceding `// main doc synced` conditional: flip the
per-sub-document status to `true` on a step-2 indicator for a
non-primary document whose stored status is falsy. -/
def subdocFlagUpdate (emitSynced : Bool) (docGuid : Bytes) (t : Nat) (x : Provider) :
    Provider × List Event :=
  if emitSynced = true ∧ ¬ docGuid = x.roomname ∧ t = messageYjsSyncStep2 ∧
      (statusGet x.syncedStatus docGuid).getD false = false then
    updateSyncedStatus x docGuid true
  else (x, [])

/-- The two flag-flipping conditionals at the end of
`messageHandlers[messageSync]` (`// main doc synced` then
`// sub doc synced`), run after the sync-protocol reader returned the
step indicator `t`. -/
def syncFlagUpdate (emitSynced : Bool) (docGuid : Bytes) (t : Nat) (s : Provider) :
    Provider × List Event :=
  let r1 :=
    if emitSynced = true ∧ docGuid = s.roomname ∧ t = messageYjsSyncStep2 ∧
        s.synced = false then
      setSynced s true
    else (s, [])
  let r2 := subdocFlagUpdate emitSynced docGuid t r1.1
  (r2.1, r1.2 ++ r2.2)

/-- `messageHandlers[messageSync]` of
`src/packages/store/src/websocket/y-websocket.js`: resolve the optional
identifier, drop the frame (empty encoder) when the resolved document is
not in the registry, otherwise run the sync-protocol reader and flip the
primary `synced` flag or the per-sub-document status on a step-2
indicator.  `none` models an exception escaping the handler. -/
def messageSyncHandlerJs (emitSynced : Bool) (buf : Bytes) (s : Provider) :
    Option (Provider × List Event × SyncReply) :=
  let docGuid := (resolveSyncDoc s buf).1
  let hasGuid := (resolveSyncDoc s buf).2.1
  let rest := (resolveSyncDoc s buf).2.2
  if docGuid ∈ s.docs then
    match readSyncMessage rest with
    | none => none
    | some t =>
      some ((syncFlagUpdate emitSynced docGuid t s).1,
            (syncFlagUpdate emitSynced docGuid t s).2,
            SyncReply.reply hasGuid docGuid t)
  else some (s, [], SyncReply.noReply)

/-- `messageHandlers[messageSync]` of the typed near-duplicate
(`src/unnamed/part_001`): identical except that the early return also
fires when the decoder is already at the end of the buffer
(`decoder.pos === decoder.arr.length`). -/
def messageSyncHandlerTs (emitSynced : Bool) (buf : Bytes) (s : Provider) :
    Option (Provider × List Event × SyncReply) :=
  let docGuid := (resolveSyncDoc s buf).1
  let hasGuid := (resolveSyncDoc s buf).2.1
  let rest := (resolveSyncDoc s buf).2.2
  if docGuid ∈ s.docs ∧ rest ≠ [] then
    match readSyncMessage rest with
    | none => none
    | some t =>
      some ((syncFlagUpdate emitSynced docGuid t s).1,
            (syncFlagUpdate emitSynced docGuid t s).2,
            SyncReply.reply hasGuid docGuid t)
  else some (s, [], SyncReply.noReply)

/-- `readMessage`: read the message kind and dispatch through the
handler table.  The awareness merge, auth reader and query-awareness
reply touch no session state the claims range over; an index outside the
table logs `Unable to compute message` and returns the empty encoder. -/
def readMessage (emitSynced : Bool) (buf : Bytes) (s : Provider) :
    Option (Provider × List Event) :=
  match readVarUint buf with
  | none => none
  | some (kind, rest) =>
    if kind = messageSync then
      match messageSyncHandlerJs emitSynced rest s with
      | none => none
      | some (s1, ev, _) => some (s1, ev)
    else if kind = messageAwareness then
      match readVarUint8Array rest with
      | none => none
      | some _ => some (s, [])
    else if kind = messageAuth then some (s, [])
    else if kind = messageQueryAwareness then some (s, [])
    else some (s, [])

/-! ## Transport session state machine -/

/-- `awarenessProtocol.removeAwarenessStates`: drop every table entry
whose client identifier is in `ids`. -/
def removeAwarenessStates (table : List Nat) (ids : List Nat) : List Nat :=
  table.filter (fun c => decide (c ∉ ids))

/-- `setupWS`: guarded by `shouldConnect && ws === null`; create the
socket, set `wsconnecting`, clear `wsconnected`, clear `synced` through
the setter, and emit `status: connecting`. -/
def stepSetup (s : Provider) : Provider × List Event :=
  if s.shouldConnect = true ∧ s.hasWs = false then
    let s1 := { s with hasWs := true, wsconnecting := true, wsconnected := false }
    let r := setSynced s1 false
    (r.1, r.2 ++ [Event.statusConnecting])
  else (s, [])

/-- `websocket.onopen`: clear `wsconnecting`, set `wsconnected`, zero
the backoff counter; send a SYNC step-1 frame for every registry entry
in insertion order; send the local awareness state when it is non-null;
emit `status: connected`. -/
def stepOpen (s : Provider) : Provider × List Event :=
  ({ s with wsconnecting := false, wsconnected := true, wsUnsuccessfulReconnects := 0 },
   s.docs.map Event.wsSendSyncStep1
     ++ (if s.localStateNonNull = true then [Event.wsSendLocalAwareness s.clientID] else [])
     ++ [Event.statusConnected])

/-- `websocket.onclose`: emit `connection-close`, null the socket, clear
`wsconnecting`; when the link had reached `connected`, clear
`wsconnected`, clear `synced` through the setter, remove every remote
awareness entry and emit `status: disconnected`; otherwise increment the
backoff counter.  Either way schedule `setupWS` after
`min(2 ^ wsUnsuccessfulReconnects * 100, maxBackoffTime)`. -/
def stepClose (s : Provider) : Provider × List Event :=
  if s.wsconnected = true then
    let s1 := { s with hasWs := false, wsconnecting := false, wsconnected := false }
    let r := setSynced s1 false
    let s2 := { r.1 with awarenessClients :=
        (removeAwarenessStates r.1.awarenessClients
          (r.1.awarenessClients.filter (fun c => decide (c ≠ s.clientID)))) }
    (s2, Event.connectionClose :: r.2
          ++ [Event.statusDisconnected,
              Event.scheduleReconnect
                (min (2 ^ s2.wsUnsuccessfulReconnects * 100) s.maxBackoffTime)])
  else
    let s1 :=
      { s with
        hasWs := false
        wsconnecting := false
        wsUnsuccessfulReconnects := s.wsUnsuccessfulReconnects + 1 }
    (s1, [Event.connectionClose,
          Event.scheduleReconnect
            (min (2 ^ s1.wsUnsuccessfulReconnects * 100) s.maxBackoffTime)])

/-- `websocket.onmessage`: route the frame through `readMessage` with
synced-event emission enabled.  An exception escaping the handler leaves
the tracked state unchanged (the flag mutations all happen after the
point that can throw) and emits nothing. -/
def stepRecv (buf : Bytes) (s : Provider) : Provider × List Event :=
  match readMessage true buf s with
  | some r => r
  | none => (s, [])

/-- Deliver a list of frames in arrival order. -/
def runRecvs : List Bytes → Provider → Provider × List Event
  | [], s => (s, [])
  | b :: bs, s =>
    let r1 := stepRecv b s
    let r2 := runRecvs bs r1.1
    (r2.1, r1.2 ++ r2.2)

/-- One full connection lifetime: socket setup, successful open, a
sequence of received frames, then the close event. -/
def connectionLifetime (s0 : Provider) (bufs : List Bytes) : Provider × List Event :=
  let r1 := stepSetup s0
  let r2 := stepOpen r1.1
  let r3 := runRecvs bufs r2.1
  let r4 := stepClose r3.1
  (r4.1, r1.2 ++ r2.2 ++ r3.2 ++ r4.2)

/-- Number of `synced`-notification emissions carrying `true`. -/
def countSyncedTrue (es : List Event) : Nat :=
  es.countP (fun e => decide (e = Event.syncedEvent true))

/-- The delays of the reconnect attempts scheduled by an emission
list. -/
def scheduledDelays (es : List Event) : List Nat :=
  es.filterMap fun e =>
    match e with
    | Event.scheduleReconnect d => some d
    | _ => none

/-! ## Facade `disconnect` sequence -/

/-- Messages the facade broadcasts (payload construction is delegated to
the external awareness codec; the tombstone is
`encodeAwarenessUpdate(awareness, [clientID], new Map())`). -/
inductive OutMsg where
  | awarenessTombstone (client : Nat)
deriving Repr, DecidableEq

/-- Transport-level actions of the facade. -/
inductive Action where
  | wsSend (m : OutMsg)
  | bcPublish (m : OutMsg)
  | bcUnsubscribe
  | wsClose
deriving Repr, DecidableEq

/-- `broadcastMessage`: send on the websocket when `wsconnected`,
publish on the broadcast channel when `bcconnected`, in that order. -/
def broadcastMessageActs (s : Provider) (m : OutMsg) : List Action :=
  (if s.wsconnected = true then [Action.wsSend m] else [])
    ++ (if s.bcconnected = true then [Action.bcPublish m] else [])

/-- `disconnectBc`: broadcast the local-awareness tombstone, then
unsubscribe from the broadcast channel if subscribed. -/
def disconnectBcActs (s : Provider) : Provider × List Action :=
  let acts := broadcastMessageActs s (OutMsg.awarenessTombstone s.clientID)
  if s.bcconnected = true then ({ s with bcconnected := false }, acts ++ [Action.bcUnsubscribe])
  else (s, acts)

/-- `disconnect`: clear `shouldConnect`, run `disconnectBc`, then close
the socket if one exists. -/
def disconnectActs (s : Provider) : Provider × List Action :=
  let s1 := { s with shouldConnect := false }
  let r := disconnectBcActs s1
  if r.1.hasWs = true then (r.1, r.2 ++ [Action.wsClose]) else (r.1, r.2)

/-! ## Connection URL and broadcast topic -/

/-- Helper for `stripTrailingSlashes`: drop a leading run of `/`. -/
def dropLeadingSlashes : List Char → List Char
  | [] => []
  | c :: cs => if c = '/' then dropLeadingSlashes cs else c :: cs

/-- The constructor loop
`while (serverUrl[serverUrl.length - 1] === '/') serverUrl = serverUrl.slice(0, -1)`:
remove every trailing `/` from the server URL. -/
def stripTrailingSlashes (s : List Char) : List Char :=
  (dropLeadingSlashes s.reverse).reverse

/-- lib0 `url.encodeQueryParams`, parameterised by the external
`encodeURIComponent` primitive: `enc(key) ++ "=" ++ enc(value)` joined
with `&`. -/
def encodeQueryParams (enc : List Char → List Char)
    (params : List (List Char × List Char)) : List Char :=
  List.intercalate ['&'] (params.map (fun p => enc p.1 ++ '=' :: enc p.2))

/-- `this.url` as assigned by the constructor. -/
def providerUrl (enc : List Char → List Char) (serverUrl roomname : List Char)
    (params : List (List Char × List Char)) : List Char :=
  stripTrailingSlashes serverUrl ++ '/' :: roomname
    ++ (if (encodeQueryParams enc params).length = 0 then []
        else '?' :: encodeQueryParams enc params)

/-- `this.bcChannel` as assigned by the constructor. -/
def providerBcChannel (serverUrl roomname : List Char) : List Char :=
  stripTrailingSlashes serverUrl ++ '/' :: roomname

/-! ## Frame-level encode / decode for the SYNC round trip -/

/-- The byte string of the document identifier `doc-42`. -/
def doc42 : Bytes := [100, 111, 99, 45, 52, 50]

/-- A SYNC frame carrying a document identifier, as written by
`_getSubDocUpdateHandler` / `addSubdoc` / `_updateHandler`:
`writeVarUint(messageSync)`, `writeVarString(id)`, then the sync-protocol
payload bytes. -/
def encodeSyncFrame (guid payload : Bytes) : Bytes :=
  writeVarUint messageSync ++ writeVarString guid ++ payload

/-- The matching reader, as performed by `readMessage` plus the head of
`messageHandlers[messageSync]`: the kind var-uint, the identifier
var-string, and the remaining bytes as the payload. -/
def decodeFrame (b : Bytes) : Option (Nat × Bytes × Bytes) :=
  match readVarUint b with
  | none => none
  | some (k, r) =>
    match readVarString r with
    | none => none
    | some (g, rest) => some (k, g, rest)

/-! ## Concrete provider states used by witnesses and counterexamples -/

/-- A freshly constructed provider for room `[114]` with no
sub-documents, poised to connect. -/
def exFresh : Provider :=
  { roomname := [114], docs := [[114]], mainMapKeys := [], synced := false,
    syncedStatus := [], wsconnected := false, wsconnecting := false,
    hasWs := false, shouldConnect := true, wsUnsuccessfulReconnects := 0,
    maxBackoffTime := 2500, awarenessClients := [7], clientID := 7,
    localStateNonNull := true, bcconnected := false }

/-- A connected provider that has already observed a full state exchange
for sub-document `[103]` (its sync-status entry is `true`) and sees one
remote awareness peer `9` besides the local client `7`. -/
def exConnected : Provider :=
  { roomname := [114], docs := [[114], [103]], mainMapKeys := [[103]], synced := true,
    syncedStatus := [([103], true)], wsconnected := true, wsconnecting := false,
    hasWs := true, shouldConnect := true, wsUnsuccessfulReconnects := 0,
    maxBackoffTime := 2500, awarenessClients := [7, 9], clientID := 7,
    localStateNonNull := true, bcconnected := true }

/-- A provider whose main document map knows guid `[103]` but whose
registry does not (the sub-document was never attached). -/
def exUnattached : Provider :=
  { roomname := [114], docs := [[114]], mainMapKeys := [[103]], synced := false,
    syncedStatus := [], wsconnected := true, wsconnecting := false,
    hasWs := true, shouldConnect := true, wsUnsuccessfulReconnects := 0,
    maxBackoffTime := 2500, awarenessClients := [7], clientID := 7,
    localStateNonNull := true, bcconnected := false }

/-- A complete SYNC step-2 frame for the primary room `[114]`:
kind `0`, var-string identifier `[114]` (`[1, 114]`), step indicator `1`,
empty length-prefixed update body (`[0]`). -/
def exStep2Frame : Bytes := [0, 1, 114, 1, 0]

/-! # Theorems -/

/-! ## Wire-codec round trips -/

theorem readVarUintAux_writeVarUint (n : Nat) :
    ∀ (rest : Bytes) (num mult : Nat),
      readVarUintAux (writeVarUint n ++ rest) num mult = some (num + n * mult, rest) := by
  induction n using writeVarUint.induct with
  | case1 n h =>
    intro rest num mult
    rw [writeVarUint, if_pos h]
    simp [readVarUintAux, if_pos h, Nat.mod_eq_of_lt h]
  | case2 n h ih =>
    intro rest num mult
    rw [writeVarUint, if_neg h]
    have h128 : ¬ (128 + n % 128 < 128) := by omega
    simp only [List.cons_append, readVarUintAux, if_neg h128, List.append_eq]
    rw [Nat.add_mod_left, Nat.mod_mod_of_dvd _ dvd_rfl, ih]
    congr 2
    conv_rhs => rw [← Nat.div_add_mod n 128]
    ring

/-- Round trip for the var-uint codec. -/
theorem readVarUint_writeVarUint (n : Nat) (rest : Bytes) :
    readVarUint (writeVarUint n ++ rest) = some (n, rest) := by
  rw [readVarUint, readVarUintAux_writeVarUint]
  simp

/-- Round trip for the var-string codec. -/
theorem readVarString_writeVarString (s : Bytes) (rest : Bytes) :
    readVarString (writeVarString s ++ rest) = some (s, rest) := by
  rw [writeVarString, List.append_assoc, readVarString, readVarUint_writeVarUint]
  simp [List.take_left, List.drop_left]

/-- Claim C7: encoding a SYNC frame with document identifier `doc-42`
and any payload `P`, then decoding it with the matching reader, yields
exactly kind `SYNC`, identifier `doc-42`, and payload `P`; the payload
is the entire remainder of the frame, so the frame is fully consumed
with no trailing bytes. -/
theorem c7_sync_frame_roundtrip (P : Bytes) :
    decodeFrame (encodeSyncFrame doc42 P) = some (messageSync, doc42, P) := by
  unfold encodeSyncFrame decodeFrame
  rw [List.append_assoc, readVarUint_writeVarUint]
  simp only [readVarString_writeVarString]

/-! ## Helper lemmas about the setters -/

theorem setSynced_fst (s : Provider) (st : Bool) :
    (setSynced s st).1 = { s with synced := st } := by
  unfold setSynced
  split
  · rename_i h
    rw [← h]
  · rfl

theorem countSyncedTrue_nil : countSyncedTrue [] = 0 := rfl

theorem countSyncedTrue_append (l1 l2 : List Event) :
    countSyncedTrue (l1 ++ l2) = countSyncedTrue l1 + countSyncedTrue l2 :=
  List.countP_append _ _ _

theorem countSyncedTrue_setSynced_false (s : Provider) :
    countSyncedTrue (setSynced s false).2 = 0 := by
  unfold setSynced countSyncedTrue
  split <;> simp

theorem countSyncedTrue_setSynced_true (s : Provider) (h : s.synced = false) :
    countSyncedTrue (setSynced s true).2 = 1 := by
  unfold setSynced countSyncedTrue
  rw [if_neg (by simp [h])]
  simp

theorem updateSyncedStatus_synced (s : Provider) (id : Bytes) (st : Bool) :
    (updateSyncedStatus s id st).1.synced = s.synced ∧
    (updateSyncedStatus s id st).1.wsconnected = s.wsconnected ∧
    countSyncedTrue (updateSyncedStatus s id st).2 = 0 := by
  unfold updateSyncedStatus countSyncedTrue
  split <;> simp

/-! ## Claim C8: malformed identifier prefix -/

/-- Claim C8 counterexample: in `messageHandlers[messageSync]` of
`y-websocket.js`, the SYNC frame whose body is the single byte `200`
(a truncated var-uint, so the identifier decode throws mid-read) is
rewound and reinterpreted, but the rewound bytes then make the
sync-protocol reader itself throw, and that error escapes the message
handler, contradicting the claim that no error propagates out of it. -/
theorem c8_counterexample :
    readVarString [200] = none ∧
    messageSyncHandlerJs true [200] exUnattached = none ∧
    readMessage true [0, 200] exUnattached = none := by
  refine ⟨rfl, rfl, rfl⟩

/-- Claim C8 (amended): whenever the optional document-identifier
prefix of a SYNC frame is malformed (the var-string decode throws
mid-read), the error is caught locally, the decoder position is rewound
to where it was before the identifier read, and the frame is processed
as if no identifier were present, resolved to the primary document; the
identifier-decode error itself never propagates, but the subsequent
sync-protocol processing of the rewound bytes may still throw out of
the handler. -/
theorem c8_malformed_guid_rewind (s : Provider) (buf : Bytes)
    (h : readVarString buf = none) :
    resolveSyncDoc s buf = (s.roomname, false, buf) := by
  unfold resolveSyncDoc
  rw [h]

theorem c8_witness :
    readVarString [200] = none ∧
    resolveSyncDoc exUnattached [200] = (exUnattached.roomname, false, [200]) :=
  ⟨rfl, c8_malformed_guid_rewind exUnattached [200] rfl⟩

/-! ## Claim C9: connection URL and broadcast topic -/

/-- Claim C9 counterexample: with base URL `x/`, room `r` and the
parameter map `{a: b}` (whose `encodeURIComponent` images are the
strings themselves), the connection URL is `x/r?a=b` while the
local-broadcast topic is `x/r`, so the exact URL string is not the
broadcast topic. -/
theorem c9_counterexample :
    providerUrl (fun s => s) ['x', '/'] ['r'] [(['a'], ['b'])] =
      ['x', '/', 'r', '?', 'a', '=', 'b'] ∧
    providerBcChannel ['x', '/'] ['r'] = ['x', '/', 'r'] ∧
    providerUrl (fun s => s) ['x', '/'] ['r'] [(['a'], ['b'])] ≠
      providerBcChannel ['x', '/'] ['r'] := by
  refine ⟨rfl, rfl, by decide⟩

/-- Claim C9 (amended): the connection URL is the base URL with all
trailing `/` stripped, then `/` plus the room identifier, then `?` plus
the URL-encoded parameters exactly when they are non-empty; the
local-broadcast topic is the stripped base plus `/` plus the room
identifier without the query suffix, so it equals the connection URL
exactly when the encoded parameters are empty. -/
theorem c9_url_and_topic (enc : List Char → List Char)
    (serverUrl roomname : List Char) (params : List (List Char × List Char)) :
    providerUrl enc serverUrl roomname params =
      stripTrailingSlashes serverUrl ++ '/' :: roomname
        ++ (if (encodeQueryParams enc params).length = 0 then []
            else '?' :: encodeQueryParams enc params) ∧
    providerBcChannel serverUrl roomname =
      stripTrailingSlashes serverUrl ++ '/' :: roomname ∧
    (encodeQueryParams enc params = [] →
      providerUrl enc serverUrl roomname params =
        providerBcChannel serverUrl roomname) := by
  refine ⟨rfl, rfl, fun h => ?_⟩
  unfold providerUrl providerBcChannel
  rw [h]
  simp

theorem c9_witness :
    encodeQueryParams (fun s => s) [] = [] ∧
    providerUrl (fun s => s) ['x', '/'] ['r'] [] = providerBcChannel ['x', '/'] ['r'] :=
  ⟨rfl, (c9_url_and_topic (fun s => s) ['x', '/'] ['r'] []).2.2 rfl⟩

/-! ## Claim C10: disconnect sends the awareness tombstone remotely -/

/-- Claim C10: when the remote websocket is in the connected state,
`disconnect()` (through `disconnectBc` and `broadcastMessage`) transmits
the local-awareness tombstone first over the websocket — and over the
broadcast channel when it is subscribed — and only afterwards closes the
socket; the tombstone is not confined to the local channel. -/
theorem c10_disconnect_tombstone (s : Provider)
    (hws : s.wsconnected = true) (hnn : s.hasWs = true) :
    (disconnectActs s).2 =
      Action.wsSend (OutMsg.awarenessTombstone s.clientID)
        :: ((if s.bcconnected = true then
              [Action.bcPublish (OutMsg.awarenessTombstone s.clientID),
               Action.bcUnsubscribe]
             else []) ++ [Action.wsClose]) := by
  unfold disconnectActs disconnectBcActs broadcastMessageActs
  cases hbc : s.bcconnected <;> simp [hws, hnn, hbc]

theorem c10_witness :
    exConnected.wsconnected = true ∧ exConnected.hasWs = true ∧
    (disconnectActs exConnected).2 =
      Action.wsSend (OutMsg.awarenessTombstone exConnected.clientID)
        :: ((if exConnected.bcconnected = true then
              [Action.bcPublish (OutMsg.awarenessTombstone exConnected.clientID),
               Action.bcUnsubscribe]
             else []) ++ [Action.wsClose]) :=
  ⟨rfl, rfl, c10_disconnect_tombstone exConnected rfl rfl⟩

/-! ## Claim C1: sync status map on disconnect -/

/-- Claim C1 counterexample: on the close event of a connected provider,
the sync-status entry of sub-document `[103]` is left at `true`, so a
non-primary identifier still maps to `true` after the disconnect. -/
theorem c1_counterexample :
    exConnected.wsconnected = true ∧
    [103] ≠ exConnected.roomname ∧
    statusGet (stepClose exConnected).1.syncedStatus [103] = some true := by
  refine ⟨rfl, by decide, rfl⟩

/-- Claim C1 (amended): on the websocket close event the primary synced
flag is reset to false (when the link had reached the connected state),
but the per-sub-document sync status map is left completely unchanged
by the close handler — entries that were `true` remain `true`. -/
theorem c1_close_keeps_subdoc_status (s : Provider) :
    (stepClose s).1.syncedStatus = s.syncedStatus ∧
    (s.wsconnected = true → (stepClose s).1.synced = false) := by
  unfold stepClose
  split
  · simp [setSynced_fst]
  · rename_i h
    exact ⟨rfl, fun hc => absurd hc h⟩

theorem c1_witness :
    exConnected.wsconnected = true ∧
    (stepClose exConnected).1.syncedStatus = exConnected.syncedStatus ∧
    (stepClose exConnected).1.synced = false :=
  ⟨rfl, (c1_close_keeps_subdoc_status exConnected).1,
    (c1_close_keeps_subdoc_status exConnected).2 rfl⟩

/-! ## Claim C3: reconnect backoff -/

/-- Claim C3: the reconnect delay scheduled after a connection close is
`min(2 ^ n * 100, maxBackoffTime)` milliseconds where `n` is the tracked
failed-attempt counter, which is incremented by the close handler when
the connection never reached the connected state, left unchanged when it
had, and reset to zero on every successful open. -/
theorem c3_backoff_delay (s : Provider) :
    scheduledDelays (stepClose s).2 =
      [min (2 ^ (stepClose s).1.wsUnsuccessfulReconnects * 100) s.maxBackoffTime] ∧
    (s.wsconnected = false →
      (stepClose s).1.wsUnsuccessfulReconnects = s.wsUnsuccessfulReconnects + 1) ∧
    (s.wsconnected = true →
      (stepClose s).1.wsUnsuccessfulReconnects = s.wsUnsuccessfulReconnects) ∧
    (stepOpen s).1.wsUnsuccessfulReconnects = 0 := by
  by_cases hws : s.wsconnected = true <;>
    by_cases hsy : s.synced = false <;>
      simp [stepClose, stepOpen, setSynced, scheduledDelays, hws, hsy]

theorem c3_witness :
    exFresh.wsconnected = false ∧
    scheduledDelays (stepClose exFresh).2 =
      [min (2 ^ (stepClose exFresh).1.wsUnsuccessfulReconnects * 100)
        exFresh.maxBackoffTime] ∧
    (stepClose exFresh).1.wsUnsuccessfulReconnects =
      exFresh.wsUnsuccessfulReconnects + 1 ∧
    (stepOpen exFresh).1.wsUnsuccessfulReconnects = 0 :=
  ⟨rfl, (c3_backoff_delay exFresh).1, (c3_backoff_delay exFresh).2.1 rfl,
    (c3_backoff_delay exFresh).2.2.2⟩

/-! ## Claim C4: unknown document with no readable bytes -/

/-- Claim C4: a SYNC frame whose resolved document identifier is unknown
to the registry and which carries no further readable bytes after the
identifier makes the router return an empty result — no reply frame, no
state change, no emission — without failing, in both implementations of
the handler. -/
theorem c4_unknown_doc_empty_reply (em : Bool) (s : Provider) (buf g : Bytes)
    (hread : readVarString buf = some (g, []))
    (hmap : g ∈ s.mainMapKeys) (hdocs : g ∉ s.docs) :
    messageSyncHandlerJs em buf s = some (s, [], SyncReply.noReply) ∧
    messageSyncHandlerTs em buf s = some (s, [], SyncReply.noReply) := by
  have hres : resolveSyncDoc s buf = (g, true, []) := by
    unfold resolveSyncDoc
    simp only [hread]
    rw [if_neg (by simp [hmap])]
  constructor
  · unfold messageSyncHandlerJs
    simp only [hres]
    rw [if_neg hdocs]
  · unfold messageSyncHandlerTs
    simp only [hres]
    rw [if_neg (fun hc => hdocs hc.1)]

theorem c4_witness :
    readVarString [1, 103] = some ([103], []) ∧
    [103] ∈ exUnattached.mainMapKeys ∧ [103] ∉ exUnattached.docs ∧
    messageSyncHandlerJs true [1, 103] exUnattached =
      some (exUnattached, [], SyncReply.noReply) ∧
    messageSyncHandlerTs true [1, 103] exUnattached =
      some (exUnattached, [], SyncReply.noReply) := by
  have h := c4_unknown_doc_empty_reply true exUnattached [1, 103] [103] rfl
    (by decide) (by decide)
  exact ⟨rfl, by decide, by decide, h.1, h.2⟩

/-! ## Claim C5: awareness cleanup on disconnect -/

theorem removeAwareness_filter (A : List Nat) (cid : Nat) :
    removeAwarenessStates A (A.filter (fun c => decide (c ≠ cid))) =
      A.filter (fun c => decide (c = cid)) := by
  unfold removeAwarenessStates
  apply List.filter_congr
  intro c hc
  by_cases h : c = cid <;> simp [List.mem_filter, hc, h]

/-- Claim C5: on the close event of a provider whose connection had
reached the connected state, every awareness entry whose identifier is
not the local client identifier is removed from the shared table, and
the local entry is preserved. -/
theorem c5_close_removes_remote_awareness (s : Provider) (h : s.wsconnected = true) :
    (stepClose s).1.awarenessClients =
      s.awarenessClients.filter (fun c => decide (c = s.clientID)) ∧
    (∀ c ∈ (stepClose s).1.awarenessClients, c = s.clientID) ∧
    (s.clientID ∈ s.awarenessClients →
      s.clientID ∈ (stepClose s).1.awarenessClients) := by
  have key : (stepClose s).1.awarenessClients =
      s.awarenessClients.filter (fun c => decide (c = s.clientID)) := by
    unfold stepClose
    rw [if_pos h]
    simp only [setSynced_fst]
    exact removeAwareness_filter _ _
  refine ⟨key, ?_, ?_⟩
  · intro c hc
    rw [key] at hc
    simp [List.mem_filter] at hc
    exact hc.2
  · intro hm
    rw [key]
    simp [List.mem_filter, hm]

theorem c5_witness :
    exConnected.wsconnected = true ∧
    (stepClose exConnected).1.awarenessClients =
      exConnected.awarenessClients.filter (fun c => decide (c = exConnected.clientID)) ∧
    (stepClose exConnected).1.awarenessClients = [7] :=
  ⟨rfl, (c5_close_removes_remote_awareness exConnected rfl).1, rfl⟩

/-! ## Claim C2: the primary synced flag over a connection lifetime -/

theorem subdocFlagUpdate_synced (em : Bool) (g : Bytes) (t : Nat) (x : Provider) :
    (subdocFlagUpdate em g t x).1.synced = x.synced ∧
    (subdocFlagUpdate em g t x).1.wsconnected = x.wsconnected ∧
    countSyncedTrue (subdocFlagUpdate em g t x).2 = 0 := by
  unfold subdocFlagUpdate
  split
  · exact updateSyncedStatus_synced x g true
  · exact ⟨rfl, rfl, rfl⟩

theorem syncFlagUpdate_synced (em : Bool) (g : Bytes) (t : Nat) (s : Provider) :
    (syncFlagUpdate em g t s).1.wsconnected = s.wsconnected ∧
    (s.synced = true → (syncFlagUpdate em g t s).1.synced = true) ∧
    countSyncedTrue (syncFlagUpdate em g t s).2 =
      (if s.synced = false ∧ (syncFlagUpdate em g t s).1.synced = true then 1 else 0) := by
  by_cases hc1 : em = true ∧ g = s.roomname ∧ t = messageYjsSyncStep2 ∧ s.synced = false
  · obtain ⟨u1, u2, u3⟩ := subdocFlagUpdate_synced em g t (setSynced s true).1
    simp only [syncFlagUpdate, if_pos hc1]
    refine ⟨by rw [u2, setSynced_fst], fun _ => by rw [u1, setSynced_fst], ?_⟩
    rw [countSyncedTrue_append, u3, countSyncedTrue_setSynced_true s hc1.2.2.2,
      u1, setSynced_fst]
    simp [hc1.2.2.2]
  · obtain ⟨u1, u2, u3⟩ := subdocFlagUpdate_synced em g t s
    simp only [syncFlagUpdate, if_neg hc1]
    refine ⟨u2, fun hs => by rw [u1]; exact hs, ?_⟩
    rw [countSyncedTrue_append, u3, countSyncedTrue_nil, u1]
    cases hsy : s.synced <;> simp [hsy]

theorem messageSyncHandlerJs_synced (em : Bool) (b : Bytes) (s : Provider)
    (p : Provider × List Event × SyncReply)
    (h : messageSyncHandlerJs em b s = some p) :
    p.1.wsconnected = s.wsconnected ∧
    (s.synced = true → p.1.synced = true) ∧
    countSyncedTrue p.2.1 = (if s.synced = false ∧ p.1.synced = true then 1 else 0) := by
  simp only [messageSyncHandlerJs] at h
  split at h
  · split at h
    · cases h
    · rename_i t _
      injection h with h2
      subst h2
      exact syncFlagUpdate_synced em (resolveSyncDoc s b).1 t s
  · injection h with h2
    subst h2
    cases hsy : s.synced <;> simp [countSyncedTrue, hsy]

theorem stepRecv_synced (b : Bytes) (s : Provider) :
    (stepRecv b s).1.wsconnected = s.wsconnected ∧
    (s.synced = true → (stepRecv b s).1.synced = true) ∧
    countSyncedTrue (stepRecv b s).2 =
      (if s.synced = false ∧ (stepRecv b s).1.synced = true then 1 else 0) := by
  cases hk : readVarUint b with
  | none =>
    cases hsy : s.synced <;> simp [stepRecv, readMessage, hk, countSyncedTrue, hsy]
  | some kr =>
    obtain ⟨kind, rest⟩ := kr
    simp only [stepRecv, readMessage, hk]
    by_cases h0 : kind = messageSync
    · rw [if_pos h0]
      cases hm : messageSyncHandlerJs true rest s with
      | none => cases hsy : s.synced <;> simp [hm, countSyncedTrue, hsy]
      | some p =>
        obtain ⟨s1, ev, r⟩ := p
        have hh := messageSyncHandlerJs_synced true rest s (s1, ev, r) hm
        simp only [hm]
        simpa using hh
    · rw [if_neg h0]
      by_cases h1 : kind = messageAwareness
      · rw [if_pos h1]
        cases hva : readVarUint8Array rest <;>
          cases hsy : s.synced <;> simp [hva, countSyncedTrue, hsy]
      · rw [if_neg h1]
        by_cases h2 : kind = messageAuth
        · rw [if_pos h2]
          cases hsy : s.synced <;> simp [countSyncedTrue, hsy]
        · rw [if_neg h2]
          by_cases h3 : kind = messageQueryAwareness
          · rw [if_pos h3]
            cases hsy : s.synced <;> simp [countSyncedTrue, hsy]
          · rw [if_neg h3]
            cases hsy : s.synced <;> simp [countSyncedTrue, hsy]

theorem runRecvs_synced (bufs : List Bytes) (s : Provider) :
    (runRecvs bufs s).1.wsconnected = s.wsconnected ∧
    (s.synced = true → (runRecvs bufs s).1.synced = true) ∧
    countSyncedTrue (runRecvs bufs s).2 =
      (if s.synced = false ∧ (runRecvs bufs s).1.synced = true then 1 else 0) := by
  induction bufs generalizing s with
  | nil => cases hsy : s.synced <;> simp [runRecvs, countSyncedTrue, hsy]
  | cons b bs ih =>
    obtain ⟨h1, h2, h3⟩ := stepRecv_synced b s
    obtain ⟨i1, i2, i3⟩ := ih (stepRecv b s).1
    have e1 : (runRecvs (b :: bs) s).1 = (runRecvs bs (stepRecv b s).1).1 := rfl
    have e2 : (runRecvs (b :: bs) s).2 =
        (stepRecv b s).2 ++ (runRecvs bs (stepRecv b s).1).2 := rfl
    refine ⟨by rw [e1, i1, h1], fun hs => by rw [e1]; exact i2 (h2 hs), ?_⟩
    rw [e2, countSyncedTrue_append, h3, i3, e1]
    by_cases hs : s.synced = true
    · have hs1 := h2 hs
      have hs2 := i2 hs1
      simp [hs, hs1, hs2]
    · have hs' : s.synced = false := by
        cases hsy : s.synced
        · rfl
        · exact absurd hsy hs
      by_cases hmid : (stepRecv b s).1.synced = true
      · have hfin := i2 hmid
        simp [hs', hmid, hfin]
      · have hmid' : (stepRecv b s).1.synced = false := by
          cases hmm : (stepRecv b s).1.synced
          · rfl
          · exact absurd hmm hmid
        simp [hs', hmid']

theorem stepSetup_fst (s : Provider) (h1 : s.shouldConnect = true) (h2 : s.hasWs = false) :
    (stepSetup s).1 =
      { s with hasWs := true, wsconnecting := true, wsconnected := false,
               synced := false } := by
  unfold stepSetup
  rw [if_pos ⟨h1, h2⟩, setSynced_fst]

theorem countSyncedTrue_stepSetup (s : Provider) :
    countSyncedTrue (stepSetup s).2 = 0 := by
  unfold stepSetup
  split
  · rw [countSyncedTrue_append, countSyncedTrue_setSynced_false]
    rfl
  · rfl

theorem countSyncedTrue_stepOpen (s : Provider) :
    countSyncedTrue (stepOpen s).2 = 0 := by
  unfold stepOpen countSyncedTrue
  rw [List.countP_eq_zero]
  intro e he
  simp only [List.mem_append, List.mem_map, List.mem_singleton] at he
  rcases he with ((⟨a, _, rfl⟩ | hif) | rfl)
  · simp
  · split at hif <;> simp_all
  · simp

theorem countSyncedTrue_stepClose (s : Provider) :
    countSyncedTrue (stepClose s).2 = 0 := by
  by_cases hws : s.wsconnected = true <;> by_cases hsy : s.synced = false <;>
    simp [stepClose, setSynced, countSyncedTrue, hws, hsy]

theorem stepClose_synced_false (s : Provider) (h : s.wsconnected = true) :
    (stepClose s).1.synced = false := by
  unfold stepClose
  rw [if_pos h]
  simp [setSynced_fst]

/-- Claim C2: over one connection lifetime, the primary synced flag is
false right after the open, false again after the close, and the number
of `synced(true)` notifications emitted during the whole lifetime equals
one exactly when the flag transitioned false→true during the received
frames and zero otherwise — so the transition happens at most once,
the notification fires exactly once per transition, and redundant step-2
frames arriving while already synced emit nothing further. -/
theorem c2_synced_once_per_lifetime (s0 : Provider) (bufs : List Bytes)
    (h1 : s0.shouldConnect = true) (h2 : s0.hasWs = false) :
    (stepOpen (stepSetup s0).1).1.synced = false ∧
    (connectionLifetime s0 bufs).1.synced = false ∧
    countSyncedTrue (connectionLifetime s0 bufs).2 =
      (if (runRecvs bufs (stepOpen (stepSetup s0).1).1).1.synced = true then 1
       else 0) := by
  have hset := stepSetup_fst s0 h1 h2
  have hopen_synced : (stepOpen (stepSetup s0).1).1.synced = false := by
    rw [hset]
    rfl
  have hopen_ws : (stepOpen (stepSetup s0).1).1.wsconnected = true := by
    rw [hset]
    rfl
  obtain ⟨r1, _, r3⟩ := runRecvs_synced bufs (stepOpen (stepSetup s0).1).1
  have hws3 : (runRecvs bufs (stepOpen (stepSetup s0).1).1).1.wsconnected = true := by
    rw [r1, hopen_ws]
  have efin : (connectionLifetime s0 bufs).1 =
      (stepClose (runRecvs bufs (stepOpen (stepSetup s0).1).1).1).1 := rfl
  have eev : (connectionLifetime s0 bufs).2 =
      (stepSetup s0).2 ++ (stepOpen (stepSetup s0).1).2
        ++ (runRecvs bufs (stepOpen (stepSetup s0).1).1).2
        ++ (stepClose (runRecvs bufs (stepOpen (stepSetup s0).1).1).1).2 := rfl
  refine ⟨hopen_synced, ?_, ?_⟩
  · rw [efin]
    exact stepClose_synced_false _ hws3
  · rw [eev, countSyncedTrue_append, countSyncedTrue_append, countSyncedTrue_append,
      countSyncedTrue_stepSetup, countSyncedTrue_stepOpen, countSyncedTrue_stepClose,
      r3, hopen_synced]
    simp

theorem c2_witness :
    exFresh.shouldConnect = true ∧ exFresh.hasWs = false ∧
    ((stepOpen (stepSetup exFresh).1).1.synced = false ∧
     (connectionLifetime exFresh [exStep2Frame, exStep2Frame]).1.synced = false ∧
     countSyncedTrue (connectionLifetime exFresh [exStep2Frame, exStep2Frame]).2 =
       (if (runRecvs [exStep2Frame, exStep2Frame]
              (stepOpen (stepSetup exFresh).1).1).1.synced = true then 1
        else 0)) :=
  ⟨rfl, rfl, c2_synced_once_per_lifetime exFresh [exStep2Frame, exStep2Frame] rfl rfl⟩

/-! ## Claim C6: actions on a successful open -/

/-- Claim C6: on a successful socket open (which always follows a
`setupWS` on the same socket, with no frame delivered in between), the
session has backoff counter zero, `wsconnecting` false, `wsconnected`
true and `synced` false, and its emissions are exactly: one SYNC step-1
request per registered document in registry insertion order (the primary
always included), then — if and only if the local awareness state is
non-null — one awareness update for exactly the local client, then the
`status: connected` notification. -/
theorem c6_on_open (s0 : Provider) (h1 : s0.shouldConnect = true)
    (h2 : s0.hasWs = false) (h3 : s0.roomname ∈ s0.docs) :
    (stepOpen (stepSetup s0).1).1.wsUnsuccessfulReconnects = 0 ∧
    (stepOpen (stepSetup s0).1).1.wsconnecting = false ∧
    (stepOpen (stepSetup s0).1).1.wsconnected = true ∧
    (stepOpen (stepSetup s0).1).1.synced = false ∧
    (stepOpen (stepSetup s0).1).2 =
      s0.docs.map Event.wsSendSyncStep1
        ++ (if s0.localStateNonNull = true then
              [Event.wsSendLocalAwareness s0.clientID]
            else [])
        ++ [Event.statusConnected] ∧
    Event.wsSendSyncStep1 s0.roomname ∈ (stepOpen (stepSetup s0).1).2 := by
  rw [stepSetup_fst s0 h1 h2]
  refine ⟨rfl, rfl, rfl, rfl, rfl, ?_⟩
  unfold stepOpen
  simp only [List.mem_append, List.mem_map]
  exact Or.inl (Or.inl ⟨s0.roomname, h3, rfl⟩)

theorem c6_witness :
    exFresh.shouldConnect = true ∧ exFresh.hasWs = false ∧
    exFresh.roomname ∈ exFresh.docs ∧
    ((stepOpen (stepSetup exFresh).1).1.wsUnsuccessfulReconnects = 0 ∧
     (stepOpen (stepSetup exFresh).1).1.wsconnecting = false ∧
     (stepOpen (stepSetup exFresh).1).1.wsconnected = true ∧
     (stepOpen (stepSetup exFresh).1).1.synced = false ∧
     (stepOpen (stepSetup exFresh).1).2 =
       exFresh.docs.map Event.wsSendSyncStep1
         ++ (if exFresh.localStateNonNull = true then
               [Event.wsSendLocalAwareness exFresh.clientID]
             else [])
         ++ [Event.statusConnected] ∧
     Event.wsSendSyncStep1 exFresh.roomname ∈ (stepOpen (stepSetup exFresh).1).2) :=
  ⟨rfl, rfl, by decide, c6_on_open exFresh rfl rfl (by decide)⟩

end YWs
